import Mathlib

/-!
Verification of the procedural page-turn animation engine of the
SOCA_WEBSITE repository (r3f-animated-book-slider-final).

The definitions below are a shallow embedding of the JavaScript source:
  * RealisticBook.jsx — wedge morph engine (closedFactor / vertex morph),
    flip orchestration (useEffect + setTimeout), per-frame actor animation
    (rawProgress / easeCubicInOut / currentAngle), page-block geometry.
  * PageActor.jsx — skinned page geometry (skin indices / weights), the
    bone chain, and the per-frame curl computation (progress, turningTime,
    per-bone yaw and pitch).
  * ExperienceFog.jsx (incl. the appended UI module) — the page atom and
    the Next/Prev/Reset page buttons, and the pages content array.

Real-number (float) computations are embedded over ℝ (ℚ where the source
arithmetic is exact rational), with JavaScript Math functions mapped to
their mathematical counterparts: Math.sin = Real.sin, Math.sign =
Real.sign, Math.abs = |·|, Math.min/max = min/max, Math.floor = Int.floor,
MathUtils.clamp v lo hi = max lo (min hi v), and `%` on nonnegative
operands = x - m * ⌊x / m⌋.
-/

namespace SOCA

/-- MathUtils.clamp(v, lo, hi) = Math.max(lo, Math.min(hi, v)). -/
noncomputable def clamp (v lo hi : ℝ) : ℝ := max lo (min hi v)

/-! ## Wedge Morph Engine (RealisticBook.jsx, useFrame lines 148–190) -/

/-- RealisticBook.jsx line 150:
`closedFactor = MathUtils.clamp(currentRot / (Math.PI / 2), 0, 1)` where
`currentRot = Math.abs(groupLeft.current.rotation.y)` is the page block's
hinge angle. -/
noncomputable def closedFactor (hingeAngle : ℝ) : ℝ :=
  clamp (|hingeAngle| / (Real.pi / 2)) 0 1

/-- RealisticBook.jsx lines 181–183: for a morphable (top) vertex,
`newY = startY + (endY - startY) * closedFactor` with `startY = wedgeYs[i]`
(open profile) and `endY = blockYs[i]` (closed profile).  This is the y
written back to the vertex buffer (the write is skipped when it would move
the vertex by less than 1e-4, an update-flag optimization that does not
change the computed target). -/
noncomputable def morphY (wedgeY blockY c : ℝ) : ℝ :=
  wedgeY + (blockY - wedgeY) * c

/-! ## Joint-Chain Deformer (PageActor.jsx, useFrame lines 109–148) -/

/-- PageActor.jsx line 21: `PAGE_SEGMENTS = 30`, the number of chain
segments; the bone chain has `PAGE_SEGMENTS + 1` bones. -/
def PAGE_SEGMENTS : ℕ := 30

/-- PageActor.jsx line 134: `MAX_BEND = 0.05`. -/
noncomputable def MAX_BEND : ℝ := 0.05

/-- PageActor.jsx line 116: the Actor's internally derived progress,
`progress = Math.min(Math.abs(rotationAngle) / Math.PI, 1)`. -/
noncomputable def actorProgress (rotationAngle : ℝ) : ℝ :=
  min (|rotationAngle| / Real.pi) 1

/-- PageActor.jsx line 119: `turningTime = Math.sin(progress * Math.PI)`,
the bell-shaped turning-time weight. -/
noncomputable def turningTime (progress : ℝ) : ℝ :=
  Real.sin (progress * Real.pi)

/-- PageActor.jsx lines 121–146, the per-bone yaw (`bone.rotation.y`):
bone 0 receives the main flip rotation `rotationAngle`; bone i > 0
receives `curlShape * MAX_BEND * turningTime * -curlDir` with
`curlShape = (i / PAGE_SEGMENTS)^2` and
`curlDir = Math.sign(rotationAngle)`. -/
noncomputable def boneRotY (rotationAngle progress : ℝ) (i : ℕ) : ℝ :=
  if i = 0 then rotationAngle
  else ((i : ℝ) / (PAGE_SEGMENTS : ℝ)) ^ 2 * MAX_BEND * turningTime progress
    * (-Real.sign rotationAngle)

/-- PageActor.jsx lines 124–146, the per-bone pitch (`bone.rotation.x`):
bone 0 is untouched (0); bone i > 0 receives
`(i > 10 ? curlShape * 0.05 : 0) * turningTime`. -/
noncomputable def boneRotX (_rotationAngle progress : ℝ) (i : ℕ) : ℝ :=
  if i = 0 then 0
  else (if 10 < i then ((i : ℝ) / (PAGE_SEGMENTS : ℝ)) ^ 2 * 0.05 else 0)
    * turningTime progress

/-! ## Flip Orchestrator (RealisticBook.jsx, lines 44–51 and 119–134) -/

/-- RealisticBook.jsx line 48: the flip direction ref holds the string
`'next'` or `'prev'`. -/
inductive FlipDir
  | next
  | prev
  deriving DecidableEq, Repr

/-- The orchestration state of RealisticBook.jsx lines 44–51: the
`isFlipping` useState flag, the `prevPage`, `flipStartTime` and
`flipDirection` refs, together with the fire times of the pending
setTimeout callbacks in scheduling order (a callback is scheduled on every
trigger and never cleared). -/
structure FlipState where
  isFlipping : Bool
  prevPage : ℤ
  flipStartTime : ℤ
  flipDirection : FlipDir
  timers : List ℤ
  deriving DecidableEq, Repr

/-- RealisticBook.jsx lines 130 and 194: the fixed 6000 ms flip duration. -/
def FLIP_DURATION : ℤ := 6000

/-- The initial orchestration state (RealisticBook.jsx lines 45–48, with
the page atom's initial value 0): not flipping, `prevPage = 0`,
`flipStartTime = 0`, `flipDirection = 'next'`, no pending timers. -/
def idleBook : FlipState :=
  { isFlipping := false
    prevPage := 0
    flipStartTime := 0
    flipDirection := FlipDir.next
    timers := [] }

/-- RealisticBook.jsx lines 120–134, the useEffect that runs when the
externally-supplied page index changes: if `page ≠ prevPage` it sets
`isFlipping = true`, `flipStartTime = Date.now()`,
`flipDirection = page > prevPage ? 'next' : 'prev'`, schedules a
setTimeout for 6000 ms from now, and sets `prevPage = page`; otherwise it
does nothing. -/
def pageChange (s : FlipState) (page now : ℤ) : FlipState :=
  if page ≠ s.prevPage then
    { isFlipping := true
      prevPage := page
      flipStartTime := now
      flipDirection := if s.prevPage < page then FlipDir.next else FlipDir.prev
      timers := s.timers ++ [now + FLIP_DURATION] }
  else s

/-- The earliest pending setTimeout callback fires (RealisticBook.jsx
lines 128–130): it runs `setIsFlipping(false)`, unconditionally. -/
def timerFire (s : FlipState) : FlipState :=
  { s with isFlipping := false, timers := s.timers.tail }

/-- RealisticBook.jsx lines 280–288: the PageActor is rendered (visible)
exactly when `isFlipping` holds. -/
def actorVisible (s : FlipState) : Bool := s.isFlipping

/-! ## Per-frame actor animation (RealisticBook.jsx, lines 192–222) -/

/-- RealisticBook.jsx lines 36–38:
`easeCubicInOut t = t < 0.5 ? 4 t³ : 1 − (−2t + 2)³ / 2`. -/
noncomputable def easeCubicInOut (t : ℝ) : ℝ :=
  if t < 1 / 2 then 4 * t * t * t else 1 - (-2 * t + 2) ^ 3 / 2

/-- RealisticBook.jsx line 197:
`rawProgress = Math.min(elapsed / FLIP_DURATION, 1)` with
`elapsed = now − flipStartTime` and `FLIP_DURATION = 6000` ms. -/
noncomputable def rawProgress (elapsed : ℝ) : ℝ := min (elapsed / 6000) 1

/-- RealisticBook.jsx lines 202–206: the root rotation fed to the actor,
`currentAngle = startRot + (targetRot − startRot) · smoothProgress`, where
`(startRot, targetRot)` is `(0, −π)` for a `'next'` flip and `(−π, 0)` for
a `'prev'` flip. -/
noncomputable def currentAngle (isNext : Bool) (smoothProgress : ℝ) : ℝ :=
  (if isNext then (0 : ℝ) else -Real.pi)
    + ((if isNext then -Real.pi else 0) - (if isNext then (0 : ℝ) else -Real.pi))
      * smoothProgress

/-! ## Page navigation (ExperienceFog.jsx lines 166–169 and the appended
UI module lines 274–298) -/

/-- The three page-navigation buttons of the Leva "Book State" panel. -/
inductive NavOp
  | nextPage
  | prevPage
  | resetPage
  deriving DecidableEq, Repr

/-- Button semantics on the page atom (ExperienceFog.jsx lines 166–169):
Next Page runs `!bookClosed && setPage(p => p + 1)`, Prev Page runs
`!bookClosed && setPage(p => Math.max(0, p - 1))`, Reset Page runs
`setPage(0)` unconditionally. -/
def navStep (bookClosed : Bool) (p : ℤ) : NavOp → ℤ
  | NavOp.nextPage => if bookClosed then p else p + 1
  | NavOp.prevPage => if bookClosed then p else max 0 (p - 1)
  | NavOp.resetPage => 0

/-- The 16 picture identifiers of the UI module (ExperienceFog.jsx,
appended UI module lines 255–272). -/
def pictures : List String :=
  ["DSC00680", "DSC00933", "DSC00966", "DSC00983", "DSC01011", "DSC01040",
   "DSC01064", "DSC01071", "DSC01103", "DSC01145", "DSC01420", "DSC01461",
   "DSC01489", "DSC02031", "DSC02064", "DSC02069"]

/-- The UI module's loop
`for (let i = 1; i < pictures.length - 1; i += 2) pages.push(...)`,
embedded with a structural fuel counter; `pictures.length` iterations are
more than enough since the body runs only while `i < pictures.length - 1`
and `i` grows by 2 each pass. -/
def pagesLoop : ℕ → ℕ → List (String × String)
  | 0, _ => []
  | fuel + 1, i =>
    if i < pictures.length - 1 then
      (pictures.getD (i % pictures.length) "",
        pictures.getD ((i + 1) % pictures.length) "")
        :: pagesLoop fuel (i + 2)
    else []

/-- The UI module's pages content array (front-cover entry, the loop
entries, back-cover entry). -/
def pages : List (String × String) :=
  (("book-cover", pictures.getD 0 "") :: pagesLoop pictures.length 1)
    ++ [(pictures.getD (pictures.length - 1) "", "book-back")]

/-- The number of content entries in the pages array. -/
def pageCount : ℕ := pages.length

/-! ## Actor skin binding (PageActor.jsx, lines 16–99) -/

/-- PageActor.jsx line 17: the Actor sheet's `PAGE_WIDTH = 0.56`. -/
def ACTOR_PAGE_WIDTH : ℚ := 56 / 100

/-- PageActor.jsx line 18: `SPINE_OFFSET = 0.18`. -/
def ACTOR_SPINE_OFFSET : ℚ := 18 / 100

/-- PageActor.jsx line 23: `ACTOR_WIDTH = PAGE_WIDTH + SPINE_OFFSET`. -/
def ACTOR_WIDTH : ℚ := ACTOR_PAGE_WIDTH + ACTOR_SPINE_OFFSET

/-- PageActor.jsx line 24: `SEGMENT_WIDTH = ACTOR_WIDTH / PAGE_SEGMENTS`. -/
def SEGMENT_WIDTH : ℚ := ACTOR_WIDTH / (PAGE_SEGMENTS : ℚ)

/-- PageActor.jsx lines 69–70:
`skinIndex = Math.max(0, Math.floor(x / SEGMENT_WIDTH))` and
`safeIndex = Math.min(skinIndex, PAGE_SEGMENTS - 1)`, for a vertex at
x-coordinate `x` (after the geometry is shifted to x ∈ [0, ACTOR_WIDTH]). -/
def safeIndex (x : ℚ) : ℤ :=
  min (max 0 ⌊x / SEGMENT_WIDTH⌋) ((PAGE_SEGMENTS : ℤ) - 1)

/-- PageActor.jsx line 71:
`skinWeight = (x % SEGMENT_WIDTH) / SEGMENT_WIDTH`; on the nonnegative
operands used here, JavaScript `x % m` equals `x − m·⌊x / m⌋`. -/
def skinWeight (x : ℚ) : ℚ :=
  (x - SEGMENT_WIDTH * ⌊x / SEGMENT_WIDTH⌋) / SEGMENT_WIDTH

/-- PageActor.jsx line 73: the four influence-slot bone indices pushed for
each vertex: `(safeIndex, safeIndex + 1, 0, 0)`. -/
def vertexSkinIndices (x : ℚ) : List ℤ :=
  [safeIndex x, safeIndex x + 1, 0, 0]

/-- PageActor.jsx line 74: the four influence-slot weights pushed for each
vertex: `(1 − skinWeight, skinWeight, 0, 0)`. -/
def vertexSkinWeights (x : ℚ) : List ℚ :=
  [1 - skinWeight x, skinWeight x, 0, 0]

/-- PageActor.jsx lines 89–98: the skeleton's bone array holds
`PAGE_SEGMENTS + 1` bones (indices `0 .. PAGE_SEGMENTS`). -/
def numBones : ℕ := PAGE_SEGMENTS + 1

/-! ## Rendered content assignment (RealisticBook.jsx, lines 249–288) -/

/-- RealisticBook.jsx line 257: the Actor's front texture, the hard-coded
asset path `"/textures/DSC00680.jpg"`. -/
def actorTextureFront : String := "/textures/DSC00680.jpg"

/-- RealisticBook.jsx line 258: the Actor's back texture, the hard-coded
asset path `"/textures/DSC00933.jpg"`. -/
def actorTextureBack : String := "/textures/DSC00933.jpg"

/-- The vertex/texture content assignment RealisticBook renders for a
given orchestration state (lines 251–252, 267–288): the left wedge block's
material is the fixed color `"orange"`, the right wedge block's the fixed
paper color `"#fdfbf7"` (neither has a texture map), and the Actor, when
`isFlipping` holds, carries the two hard-coded textures.  Nothing in the
component's material or texture wiring reads the page index: the
orchestration state enters only through the Actor's visibility (the wedge
vertex morph likewise depends only on the hinge angle, `morphY` /
`closedFactor` above). -/
def renderedContent (s : FlipState) : String × String × List String :=
  ("orange", "#fdfbf7",
    if actorVisible s then [actorTextureFront, actorTextureBack] else [])

end SOCA

namespace SOCA

/-- Claim C1: closedness is `clamp(|hingeAngle| / (π/2), 0, 1)`; for every
morphable vertex the morphed y is the open-profile (wedge) target at
closedness 0, the closed-profile (block) target at closedness 1, and is
monotonic in closedness in between; a hinge angle of π/4 out of a maximum
π/2 yields closedness 0.5. -/
theorem wedge_morph_closedness_spec (wedgeY blockY : ℝ) :
    morphY wedgeY blockY 0 = wedgeY ∧
    morphY wedgeY blockY 1 = blockY ∧
    (Monotone (morphY wedgeY blockY) ∨ Antitone (morphY wedgeY blockY)) ∧
    closedFactor (Real.pi / 4) = 1 / 2 := by
  refine ⟨by simp [morphY], by simp [morphY], ?_, ?_⟩
  · rcases le_total wedgeY blockY with h | h
    · left
      intro c₁ c₂ hc
      have hnn : (0 : ℝ) ≤ blockY - wedgeY := by linarith
      have := mul_le_mul_of_nonneg_left hc hnn
      simp only [morphY]
      nlinarith
    · right
      intro c₁ c₂ hc
      have hnn : (0 : ℝ) ≤ wedgeY - blockY := by linarith
      simp only [morphY]
      nlinarith
  · have hpi : (0 : ℝ) < Real.pi := Real.pi_pos
    have habs : |Real.pi / 4| = Real.pi / 4 := abs_of_pos (by linarith)
    have hdiv : Real.pi / 4 / (Real.pi / 2) = 1 / 2 := by
      field_simp
      ring
    simp only [closedFactor, clamp, habs, hdiv]
    norm_num

/-- Claim C2: the turning-time weight is `w(p) = sin(p·π)`, with
`w(0) = 0`, `w(1) = 0`, `w(0.5) = 1`; every non-root bone's curl (yaw)
and fold (pitch) rotation is multiplied by this weight, so all non-root
joint rotations are zero at the start (progress 0) and end (progress 1)
of a turn. -/
theorem turning_weight_flat_ends_spec (a : ℝ) (i : ℕ) (hi : 1 ≤ i) :
    turningTime 0 = 0 ∧ turningTime 1 = 0 ∧ turningTime (1 / 2) = 1 ∧
    boneRotY a 0 i = 0 ∧ boneRotX a 0 i = 0 ∧
    boneRotY a 1 i = 0 ∧ boneRotX a 1 i = 0 := by
  have h0 : turningTime 0 = 0 := by simp [turningTime]
  have h1 : turningTime 1 = 0 := by simp [turningTime]
  have hhalf : turningTime (1 / 2) = 1 := by
    rw [turningTime]
    rw [show (1 / 2 : ℝ) * Real.pi = Real.pi / 2 by ring]
    exact Real.sin_pi_div_two
  have hine : ¬ i = 0 := by omega
  refine ⟨h0, h1, hhalf, ?_, ?_, ?_, ?_⟩ <;>
    simp [boneRotY, boneRotX, hine, h0, h1]

/-- Witness for C2 at `a = 0`, `i = 1`. -/
theorem turning_weight_flat_ends_witness :
    turningTime 0 = 0 ∧ turningTime 1 = 0 ∧ turningTime (1 / 2) = 1 ∧
    boneRotY 0 0 1 = 0 ∧ boneRotX 0 0 1 = 0 ∧
    boneRotY 0 1 1 = 0 ∧ boneRotX 0 1 1 = 0 :=
  turning_weight_flat_ends_spec 0 1 (by norm_num)

/-- Claim C3: for every bone i > 0 the local yaw equals
`−sign(rawAngle) · w(p) · maxBend · (i/N)²` (quadratic falloff), and the
secondary pitch fold, also weighted by `w(p)`, is applied only to the
outermost bones (`i > 10`): pitch is zero for bones at or near the spine
(`i ≤ 10`). -/
theorem quadratic_curl_fold_spec (a p : ℝ) (i : ℕ) (hi : 1 ≤ i) :
    boneRotY a p i
      = -Real.sign a * turningTime p * MAX_BEND
        * ((i : ℝ) / (PAGE_SEGMENTS : ℝ)) ^ 2 ∧
    (i ≤ 10 → boneRotX a p i = 0) ∧
    (10 < i →
      boneRotX a p i
        = ((i : ℝ) / (PAGE_SEGMENTS : ℝ)) ^ 2 * 0.05 * turningTime p) := by
  have hine : ¬ i = 0 := by omega
  refine ⟨?_, ?_, ?_⟩
  · simp only [boneRotY, if_neg hine]
    ring
  · intro hle
    have : ¬ 10 < i := by omega
    simp [boneRotX, hine, this]
  · intro hlt
    simp [boneRotX, hine, hlt]

/-- Witness for C3 at `a = -1`, `p = 1/2`, `i = 11`. -/
theorem quadratic_curl_fold_witness :
    boneRotY (-1) (1 / 2) 11
      = -Real.sign (-1) * turningTime (1 / 2) * MAX_BEND
        * ((11 : ℕ) / (PAGE_SEGMENTS : ℝ)) ^ 2 ∧
    ((11 : ℕ) ≤ 10 → boneRotX (-1) (1 / 2) 11 = 0) ∧
    (10 < (11 : ℕ) →
      boneRotX (-1) (1 / 2) 11
        = (((11 : ℕ) : ℝ) / (PAGE_SEGMENTS : ℝ)) ^ 2 * 0.05
          * turningTime (1 / 2)) :=
  quadratic_curl_fold_spec (-1) (1 / 2) 11 (by norm_num)

/-- Claim C4: in state Idle, a change of the externally-supplied page
index triggers the transition to Flipping with direction Forward exactly
when the new index exceeds the old (else Backward), records
`startTime = now`, and makes the Actor visible; an unchanged index
triggers nothing.  The end of the flip is a timer scheduled at
`now + FLIP_DURATION` independently of the per-frame easing, and when it
fires the Actor is retired and the state returns to Idle. -/
theorem flip_orchestrator_spec (s : FlipState) (page now : ℤ)
    (_hidle : s.isFlipping = false) :
    (page = s.prevPage → pageChange s page now = s) ∧
    (page ≠ s.prevPage →
      (pageChange s page now).isFlipping = true ∧
      actorVisible (pageChange s page now) = true ∧
      (pageChange s page now).flipStartTime = now ∧
      ((pageChange s page now).flipDirection = FlipDir.next ↔
        s.prevPage < page) ∧
      (pageChange s page now).timers = s.timers ++ [now + FLIP_DURATION] ∧
      (timerFire (pageChange s page now)).isFlipping = false ∧
      actorVisible (timerFire (pageChange s page now)) = false) := by
  constructor
  · intro heq
    simp [pageChange, heq]
  · intro hne
    have hdir : (pageChange s page now).flipDirection
        = if s.prevPage < page then FlipDir.next else FlipDir.prev := by
      simp [pageChange, hne]
    refine ⟨by simp [pageChange, hne], by simp [actorVisible, pageChange, hne],
      by simp [pageChange, hne], ?_, by simp [pageChange, hne],
      by simp [timerFire], by simp [actorVisible, timerFire]⟩
    rw [hdir]
    by_cases hlt : s.prevPage < page <;> simp [hlt]

/-- Witness for C4: the idle initial state, page changed to 1 at time 0. -/
theorem flip_orchestrator_witness :
    ((1 : ℤ) = idleBook.prevPage → pageChange idleBook 1 0 = idleBook) ∧
    ((1 : ℤ) ≠ idleBook.prevPage →
      (pageChange idleBook 1 0).isFlipping = true ∧
      actorVisible (pageChange idleBook 1 0) = true ∧
      (pageChange idleBook 1 0).flipStartTime = 0 ∧
      ((pageChange idleBook 1 0).flipDirection = FlipDir.next ↔
        idleBook.prevPage < 1) ∧
      (pageChange idleBook 1 0).timers
        = idleBook.timers ++ [0 + FLIP_DURATION] ∧
      (timerFire (pageChange idleBook 1 0)).isFlipping = false ∧
      actorVisible (timerFire (pageChange idleBook 1 0)) = false) :=
  flip_orchestrator_spec idleBook 1 0 rfl

/-- Claim C5 counterexample: the claim says the destination page block's
content (vertex/texture assignment) reflects page 1 after a forward flip
from page 0, because of an instant content step at flip start.  But the
rendered vertex/texture assignment never reads the page index: once the
end-of-flip timer has retired the Actor, the assignment after a flip with
destination 1 is identical to the one after a flip with destination 2,
and identical to the initial state's — while the content catalog (the UI
module's pages array) assigns different content to pages 1 and 2.  One
fixed assignment cannot reflect both destinations, so it reflects
neither; no page-dependent content step exists. -/
theorem page_content_static_counterexample :
    renderedContent (timerFire (pageChange idleBook 1 0))
      = renderedContent (timerFire (pageChange idleBook 2 0)) ∧
    renderedContent (timerFire (pageChange idleBook 1 0))
      = renderedContent idleBook ∧
    pages.getD 1 ("", "") ≠ pages.getD 2 ("", "") := by
  decide

/-- Claim C5 as amended: concrete forward flip from page index 0.  When
the fixed duration has elapsed (`elapsed = 6000`), the eased progress is 1
and the root bone's rotation is `−π`; the flip is triggered with direction
Forward; after the end-of-flip timer fires the Actor is retired.  The
instant step applied at flip start updates only the book's logical page
index (the `prevPage` ref) to 1 — it drives no vertex or texture
assignment: the rendered content is the same fixed materials and
hard-coded Actor textures for every destination page, so the state the
Actor's disappearance reveals is page-independent rather than showing
page 1's catalog content. -/
theorem forward_flip_scenario_spec :
    rawProgress 6000 = 1 ∧
    easeCubicInOut (rawProgress 6000) = 1 ∧
    currentAngle true (easeCubicInOut (rawProgress 6000)) = -Real.pi ∧
    boneRotY (currentAngle true (easeCubicInOut (rawProgress 6000)))
      (actorProgress
        (currentAngle true (easeCubicInOut (rawProgress 6000)))) 0
      = -Real.pi ∧
    (pageChange idleBook 1 0).flipDirection = FlipDir.next ∧
    (pageChange idleBook 1 0).prevPage = 1 ∧
    (timerFire (pageChange idleBook 1 0)).isFlipping = false ∧
    actorVisible (timerFire (pageChange idleBook 1 0)) = false ∧
    (timerFire (pageChange idleBook 1 0)).prevPage = 1 ∧
    (∀ p : ℤ, renderedContent (timerFire (pageChange idleBook p 0))
      = renderedContent idleBook) := by
  have hraw : rawProgress 6000 = 1 := by
    rw [rawProgress]
    norm_num
  have hease : easeCubicInOut (rawProgress 6000) = 1 := by
    rw [hraw, easeCubicInOut]
    norm_num
  have hangle : currentAngle true (easeCubicInOut (rawProgress 6000))
      = -Real.pi := by
    rw [hease, currentAngle]
    norm_num
  refine ⟨hraw, hease, hangle, ?_, ?_, ?_, ?_, ?_, ?_, ?_⟩
  · rw [hangle]
    simp [boneRotY]
  · simp [pageChange, idleBook]
  · simp [pageChange, idleBook]
  · simp [timerFire]
  · simp [actorVisible, timerFire]
  · simp [timerFire, pageChange, idleBook]
  · intro p
    simp [renderedContent, actorVisible, timerFire, idleBook]

/-- Claim C6 counterexample: the claim says no navigation sequence can
drive the page index above `pageCount`, but the Next Page button has no
upper clamp: with the book open, ten Next Page presses from the initial
index 0 reach 10, while `pageCount = 9`. -/
theorem page_index_unclamped_above :
    (List.replicate 10 NavOp.nextPage).foldl (navStep false) 0 = 10 ∧
    pageCount = 9 ∧
    ¬ ((List.replicate 10 NavOp.nextPage).foldl (navStep false) 0
        ≤ (pageCount : ℤ)) := by
  decide

/-- Claim C6 amended: every navigation sequence keeps the page index ≥ 0
(Prev Page clamps at 0, Reset Page sets 0, Next Page only increments),
but there is no upper clamp, so the index can exceed `pageCount`. -/
theorem page_index_lower_bound_spec (ops : List NavOp) (bookClosed : Bool)
    (p : ℤ) (hp : 0 ≤ p) :
    0 ≤ ops.foldl (navStep bookClosed) p := by
  induction ops generalizing p with
  | nil => exact hp
  | cons o rest ih =>
    apply ih
    cases o <;> cases bookClosed <;> simp [navStep] <;> omega

/-- Witness for C6's amended claim: one Next Page press from index 0 with
the book open. -/
theorem page_index_lower_bound_witness :
    0 ≤ ([NavOp.nextPage].foldl (navStep false) 0) :=
  page_index_lower_bound_spec [NavOp.nextPage] false 0 (by norm_num)

/-- Claim C7: while a flip is active, the orchestrator's raw progress is a
pure clamped function of elapsed time and the fixed duration, staying in
[0,1] and never decreasing as elapsed time grows; the Actor's internally
derived progress also stays in [0,1]. -/
theorem progress_invariant_spec (elapsed a : ℝ) (he : 0 ≤ elapsed) :
    0 ≤ rawProgress elapsed ∧ rawProgress elapsed ≤ 1 ∧
    (∀ e, elapsed ≤ e → rawProgress elapsed ≤ rawProgress e) ∧
    0 ≤ actorProgress a ∧ actorProgress a ≤ 1 := by
  refine ⟨?_, ?_, ?_, ?_, ?_⟩
  · exact le_min (by positivity) (by norm_num)
  · exact min_le_right _ _
  · intro e hee
    exact min_le_min (by linarith) le_rfl
  · have : (0 : ℝ) ≤ |a| / Real.pi := by positivity
    exact le_min this (by norm_num)
  · exact min_le_right _ _

/-- Witness for C7 at `elapsed = 0`, `a = 0`. -/
theorem progress_invariant_witness :
    0 ≤ rawProgress 0 ∧ rawProgress 0 ≤ 1 ∧
    (∀ e, (0 : ℝ) ≤ e → rawProgress 0 ≤ rawProgress e) ∧
    0 ≤ actorProgress 0 ∧ actorProgress 0 ≤ 1 :=
  progress_invariant_spec 0 0 le_rfl

/-- Claim C8: with the book open, a Next Page press followed immediately
by a Prev Page press returns the page index to its original value, for
every starting index p ≥ 0. -/
theorem next_prev_roundtrip_spec (p : ℤ) (hp : 0 ≤ p) :
    navStep false (navStep false p NavOp.nextPage) NavOp.prevPage = p := by
  simp only [navStep, if_neg Bool.false_ne_true]
  have : p + 1 - 1 = p := by ring
  rw [this, max_eq_right hp]

/-- Witness for C8 at `p = 0`. -/
theorem next_prev_roundtrip_witness :
    navStep false (navStep false 0 NavOp.nextPage) NavOp.prevPage = 0 :=
  next_prev_roundtrip_spec 0 le_rfl

/-- Claim C9 (implicit): a flip re-triggered `t` ms into a prior flip
(0 < t < 6000) leaves the first flip's end-of-flip timer pending (it is
never cleared): the earliest pending timer still fires at 6000 ms after
the FIRST trigger, and when it fires it sets `isFlipping` to false and
removes the Actor, although only `6000 − t < FLIP_DURATION` ms have
elapsed since the re-triggered flip's restarted start time — so the
re-triggered flip is visible for only `6000 − t` ms. -/
theorem retrigger_cut_short_spec (t : ℤ) (h0 : 0 < t) (h1 : t < 6000) :
    (pageChange (pageChange idleBook 1 0) 2 t).timers.head?
      = some (0 + FLIP_DURATION) ∧
    (pageChange (pageChange idleBook 1 0) 2 t).flipStartTime = t ∧
    (timerFire (pageChange (pageChange idleBook 1 0) 2 t)).isFlipping
      = false ∧
    actorVisible (timerFire (pageChange (pageChange idleBook 1 0) 2 t))
      = false ∧
    (0 + FLIP_DURATION)
        - (pageChange (pageChange idleBook 1 0) 2 t).flipStartTime
      = FLIP_DURATION - t ∧
    FLIP_DURATION - t < FLIP_DURATION := by
  have hstep : pageChange idleBook 1 0
      = { isFlipping := true
          prevPage := 1
          flipStartTime := 0
          flipDirection := FlipDir.next
          timers := [0 + FLIP_DURATION] } := by
    simp [pageChange, idleBook]
  have hstep2 : pageChange (pageChange idleBook 1 0) 2 t
      = { isFlipping := true
          prevPage := 2
          flipStartTime := t
          flipDirection := FlipDir.next
          timers := [0 + FLIP_DURATION, t + FLIP_DURATION] } := by
    rw [hstep]
    simp [pageChange]
  rw [hstep2]
  refine ⟨rfl, rfl, rfl, rfl, by ring, ?_⟩
  omega

/-- Witness for C9 at `t = 1000`. -/
theorem retrigger_cut_short_witness :
    (pageChange (pageChange idleBook 1 0) 2 1000).timers.head?
      = some (0 + FLIP_DURATION) ∧
    (pageChange (pageChange idleBook 1 0) 2 1000).flipStartTime = 1000 ∧
    (timerFire (pageChange (pageChange idleBook 1 0) 2 1000)).isFlipping
      = false ∧
    actorVisible (timerFire (pageChange (pageChange idleBook 1 0) 2 1000))
      = false ∧
    (0 + FLIP_DURATION)
        - (pageChange (pageChange idleBook 1 0) 2 1000).flipStartTime
      = FLIP_DURATION - 1000 ∧
    FLIP_DURATION - 1000 < FLIP_DURATION :=
  retrigger_cut_short_spec 1000 (by norm_num) (by norm_num)

/-- Claim C10: for every vertex x-coordinate in the page geometry's range
[0, ACTOR_WIDTH], the two assigned influence weights `(1 − w, w)` sum to 1
(the other two slots carry weight 0), the weight lies in [0, 1), and both
assigned bone indices are in bounds for the `PAGE_SEGMENTS + 1`-bone
array: the first is clamped to at most `PAGE_SEGMENTS − 1`, so the second
is at most `PAGE_SEGMENTS`. -/
theorem skin_binding_wellformed_spec (x : ℚ) (_hx0 : 0 ≤ x)
    (_hx1 : x ≤ ACTOR_WIDTH) :
    (vertexSkinWeights x).sum = 1 ∧
    0 ≤ skinWeight x ∧ skinWeight x < 1 ∧
    safeIndex x ≤ (PAGE_SEGMENTS : ℤ) - 1 ∧
    safeIndex x + 1 ≤ (PAGE_SEGMENTS : ℤ) ∧
    ∀ j ∈ vertexSkinIndices x, 0 ≤ j ∧ j < (numBones : ℤ) := by
  have hseg : (0 : ℚ) < SEGMENT_WIDTH := by
    rw [SEGMENT_WIDTH, ACTOR_WIDTH, ACTOR_PAGE_WIDTH, ACTOR_SPINE_OFFSET,
      PAGE_SEGMENTS]
    norm_num
  have hw : skinWeight x = Int.fract (x / SEGMENT_WIDTH) := by
    rw [skinWeight, Int.fract]
    field_simp
  have hw0 : 0 ≤ skinWeight x := by
    rw [hw]
    exact Int.fract_nonneg _
  have hw1 : skinWeight x < 1 := by
    rw [hw]
    exact Int.fract_lt_one _
  have hsi0 : 0 ≤ safeIndex x :=
    le_min (le_max_left 0 _) (by rw [PAGE_SEGMENTS]; norm_num)
  have hsi1 : safeIndex x ≤ (PAGE_SEGMENTS : ℤ) - 1 := min_le_right _ _
  refine ⟨by simp [vertexSkinWeights], hw0, hw1, hsi1, by omega, ?_⟩
  have hnb : ((numBones : ℕ) : ℤ) = 31 := by
    norm_num [numBones, PAGE_SEGMENTS]
  have hp30 : ((PAGE_SEGMENTS : ℕ) : ℤ) = 30 := by
    norm_num [PAGE_SEGMENTS]
  have h1 : 0 ≤ safeIndex x ∧ safeIndex x < (numBones : ℤ) :=
    ⟨hsi0, by omega⟩
  have h2 : 0 ≤ safeIndex x + 1 ∧ safeIndex x + 1 < (numBones : ℤ) :=
    ⟨by omega, by omega⟩
  have h3 : (0 : ℤ) ≤ 0 ∧ (0 : ℤ) < (numBones : ℤ) := ⟨le_rfl, by omega⟩
  intro j hj
  simp only [vertexSkinIndices, List.mem_cons, List.not_mem_nil,
    or_false] at hj
  rcases hj with h | h | h | h <;> rw [h] <;>
    first
    | exact h1
    | exact h2
    | exact h3

/-- Witness for C10 at `x = 37/100`. -/
theorem skin_binding_wellformed_witness :
    (vertexSkinWeights (37 / 100)).sum = 1 ∧
    0 ≤ skinWeight (37 / 100) ∧ skinWeight (37 / 100) < 1 ∧
    safeIndex (37 / 100) ≤ (PAGE_SEGMENTS : ℤ) - 1 ∧
    safeIndex (37 / 100) + 1 ≤ (PAGE_SEGMENTS : ℤ) ∧
    ∀ j ∈ vertexSkinIndices (37 / 100), 0 ≤ j ∧ j < (numBones : ℤ) :=
  skin_binding_wellformed_spec (37 / 100) (by norm_num)
    (by rw [ACTOR_WIDTH, ACTOR_PAGE_WIDTH, ACTOR_SPINE_OFFSET]; norm_num)

end SOCA
